import Mathlib

/-!
Verification of the traffic-adaptive cellular-automaton hash
(`chaincode/traffic-light/hash/cellular_automaton.py`).

The Python module is pure: every function here is a direct shallow
embedding of the corresponding Python function.  Byte strings are
modelled as `List Nat` (each entry an octet value), the CA state as a
`List Nat` of bits, Python `float` traffic densities as `ℚ`, Python
`int` urgencies as `ℤ`, and Python's `ValueError` (raised by
`bytes([x])` when `x` is out of octet range) as `Option.none`.
-/

namespace TrafficCA

/-! ## SHA-256 (the `hashlib.sha256` primitive used by the seeder)

`init_state` calls `hashlib.sha256(...)` to generate its padding
stream; we embed the full FIPS 180-4 SHA-256 over byte lists so the
seeder is executable end to end. -/

/-- Right-rotation of a 32-bit word. -/
def rotr (n x : Nat) : Nat := ((x >>> n) ||| (x <<< (32 - n))) % 4294967296

/-- The eight initial SHA-256 hash words (FIPS 180-4, in decimal). -/
def H0 : List Nat :=
  [1779033703, 3144134277, 1013904242, 2773480762,
   1359893119, 2600822924, 528734635, 1541459225]

/-- The 64 SHA-256 round constants (FIPS 180-4, in decimal). -/
def K : List Nat :=
  [1116352408, 1899447441, 3049323471, 3921009573, 961987163, 1508970993,
   2453635748, 2870763221, 3624381080, 310598401, 607225278, 1426881987,
   1925078388, 2162078206, 2614888103, 3248222580, 3835390401, 4022224774,
   264347078, 604807628, 770255983, 1249150122, 1555081692, 1996064986,
   2554220882, 2821834349, 2952996808, 3210313671, 3336571891, 3584528711,
   113926993, 338241895, 666307205, 773529912, 1294757372, 1396182291,
   1695183700, 1986661051, 2177026350, 2456956037, 2730485921, 2820302411,
   3259730800, 3345764771, 3516065817, 3600352804, 4094571909, 275423344,
   430227734, 506948616, 659060556, 883997877, 958139571, 1322822218,
   1537002063, 1747873779, 1955562222, 2024104815, 2227730452, 2361852424,
   2428436474, 2756734187, 3204031479, 3329325298]

/-- Assemble a 32-bit word from four bytes, big-endian. -/
def bytesToWord (b0 b1 b2 b3 : Nat) : Nat :=
  (b0 <<< 24) + (b1 <<< 16) + (b2 <<< 8) + b3

/-- SHA-256 message padding: append `0x80`, zeros up to 56 mod 64, then
the 64-bit big-endian bit length. -/
def sha256pad (msg : List Nat) : List Nat :=
  let L := msg.length
  let zeros := (119 - (L % 64)) % 64
  msg ++ [128] ++ List.replicate zeros 0 ++
    (List.range 8).map (fun i => ((L * 8) >>> (8 * (7 - i))) % 256)

/-- Split a padded message into 64-byte blocks. -/
def toBlocks (l : List Nat) : List (List Nat) :=
  (List.range (l.length / 64)).map (fun i => (l.drop (64 * i)).take 64)

/-- Message schedule: 16 big-endian words extended to 64. -/
def schedule (block : List Nat) : List Nat :=
  let w16 := (List.range 16).map (fun j =>
    bytesToWord (block.getD (4 * j) 0) (block.getD (4 * j + 1) 0)
      (block.getD (4 * j + 2) 0) (block.getD (4 * j + 3) 0))
  (List.range 48).foldl (fun w t =>
    let i := t + 16
    let x15 := w.getD (i - 15) 0
    let x2 := w.getD (i - 2) 0
    let s0 := (rotr 7 x15) ^^^ (rotr 18 x15) ^^^ (x15 >>> 3)
    let s1 := (rotr 17 x2) ^^^ (rotr 19 x2) ^^^ (x2 >>> 10)
    w ++ [(w.getD (i - 16) 0 + s0 + w.getD (i - 7) 0 + s1) % 4294967296]) w16

/-- One SHA-256 compression round. -/
def sha256round (w : List Nat)
    (st : Nat × Nat × Nat × Nat × Nat × Nat × Nat × Nat) (t : Nat) :
    Nat × Nat × Nat × Nat × Nat × Nat × Nat × Nat :=
  let (a, b, c, d, e, f, g, h) := st
  let S1 := (rotr 6 e) ^^^ (rotr 11 e) ^^^ (rotr 25 e)
  let ch := (e &&& f) ^^^ ((e ^^^ 4294967295) &&& g)
  let temp1 := (h + S1 + ch + K.getD t 0 + w.getD t 0) % 4294967296
  let S0 := (rotr 2 a) ^^^ (rotr 13 a) ^^^ (rotr 22 a)
  let maj := (a &&& b) ^^^ (a &&& c) ^^^ (b &&& c)
  let temp2 := (S0 + maj) % 4294967296
  ((temp1 + temp2) % 4294967296, a, b, c, (d + temp1) % 4294967296, e, f, g)

/-- SHA-256 block compression. -/
def compress (hs : List Nat) (block : List Nat) : List Nat :=
  let w := schedule block
  let init : Nat × Nat × Nat × Nat × Nat × Nat × Nat × Nat :=
    (hs.getD 0 0, hs.getD 1 0, hs.getD 2 0, hs.getD 3 0,
     hs.getD 4 0, hs.getD 5 0, hs.getD 6 0, hs.getD 7 0)
  let f := (List.range 64).foldl (sha256round w) init
  [(hs.getD 0 0 + f.1) % 4294967296, (hs.getD 1 0 + f.2.1) % 4294967296,
   (hs.getD 2 0 + f.2.2.1) % 4294967296, (hs.getD 3 0 + f.2.2.2.1) % 4294967296,
   (hs.getD 4 0 + f.2.2.2.2.1) % 4294967296, (hs.getD 5 0 + f.2.2.2.2.2.1) % 4294967296,
   (hs.getD 6 0 + f.2.2.2.2.2.2.1) % 4294967296, (hs.getD 7 0 + f.2.2.2.2.2.2.2) % 4294967296]

/-- Serialize a 32-bit word to four bytes, big-endian. -/
def wordBytes (w : Nat) : List Nat :=
  [(w >>> 24) % 256, (w >>> 16) % 256, (w >>> 8) % 256, w % 256]

/-- SHA-256 of a byte list, as a list of 32 bytes. -/
def sha256 (msg : List Nat) : List Nat :=
  ((toBlocks (sha256pad msg)).foldl compress H0).flatMap wordBytes

/-! ## The cellular-automaton hash
(`TrafficAdaptiveCA` and the module-level entry points). -/

/-- Python `int()` applied to a rational: truncation toward zero. -/
def pyInt (q : ℚ) : ℤ := if 0 ≤ q then ⌊q⌋ else ⌈q⌉

/-- Expand one byte into its 8 bits, most significant first
(the `for i in range(8): (byte >> (7 - i)) & 1` loops). -/
def byteBits (byte : Nat) : List Nat :=
  (List.range 8).map (fun i => (byte >>> (7 - i)) &&& 1)

/-- `TrafficAdaptiveCA.init_state`: seed the state from the input bytes
and the traffic density.  Python's `bytes([density_seed])` raises
`ValueError` when `density_seed` is outside octet range; that failure is
`none` here. -/
def init_state (size : Nat) (data : List Nat) (traffic_density : ℚ) :
    Option (List Nat) :=
  let bits := data.flatMap byteBits
  if bits.length < size then
    let density_seed := pyInt (traffic_density * 255)
    if 0 ≤ density_seed ∧ density_seed < 256 then
      let pad_bits := (sha256 (data ++ [density_seed.toNat])).flatMap byteBits
      let needed := size - bits.length
      some ((bits ++
        (List.flatten (List.replicate (needed / pad_bits.length + 1) pad_bits)).take
          needed).take size)
    else none
  else some (bits.take size)

/-- `TrafficAdaptiveCA.select_traffic_rule`. -/
def select_traffic_rule (density : ℚ) (signal_state : String) : Nat :=
  if signal_state = "EMERGENCY" then 184
  else if density < 3 / 10 then
    if signal_state = "GREEN" then 30 else 90
  else if density < 7 / 10 then
    if signal_state = "YELLOW" then 110 else 90
  else
    if signal_state = "RED" then 110 else 184

/-- `TrafficAdaptiveCA.adapt_neighborhood`. -/
def adapt_neighborhood (signal_state : String) : Nat :=
  if signal_state = "GREEN" then 1
  else if signal_state = "YELLOW" then 2
  else if signal_state = "RED" then 3
  else if signal_state = "EMERGENCY" then 5
  else 1

/-- The neighbor index `(i + offset) % size` computed in `evolve`, with
the offset `-radius..+radius` parametrised as `k - radius` for
`k = 0..2*radius`.  Python's `%` on a positive modulus agrees with
`Int.emod`. -/
def neighborIdx (size i k radius : Nat) : Nat :=
  (((i : ℤ) + k - radius) % (size : ℤ)).toNat

/-- The body of the `for i in range(self.size)` loop of
`TrafficAdaptiveCA.evolve`: the new value of cell `i`, computed from the
prior state only. -/
def cellNext (size : Nat) (state : List Nat) (rule radius i : Nat) : Nat :=
  let neighborhood_bits :=
    (List.range (2 * radius + 1)).map (fun k => state.getD (neighborIdx size i k radius) 0)
  let neighborhood_value :=
    neighborhood_bits.foldl (fun acc bit => (acc <<< 1) ||| bit) 0
  if radius = 1 then (rule >>> neighborhood_value) &&& 1
  else
    let extended_rule := rule ^^^ (neighborhood_value % 256)
    let bit_position := neighborhood_value % 8
    (extended_rule >>> bit_position) &&& 1

/-- `TrafficAdaptiveCA.evolve`: one full generation, double-buffered
(`new_state` is built from `self.state` and swapped in at the end). -/
def evolve (size : Nat) (state : List Nat) (rule radius : Nat) : List Nat :=
  (List.range size).map (cellNext size state rule radius)

/-- `TrafficAdaptiveCA.calculate_evolution_steps`. -/
def calculate_evolution_steps (density : ℚ) (urgency : ℤ) : ℤ :=
  let base_steps : ℤ := 64
  let density_factor := pyInt (density * 64)
  let urgency_factor := urgency * 10
  let total_steps := base_steps + density_factor + urgency_factor
  min total_steps 256

/-- `TrafficAdaptiveCA.get_hash`: pack the state bits into 32 bytes,
most significant bit first.  (The Python method takes a `steps` argument
it never reads.) -/
def get_hash (state : List Nat) (steps : ℤ) : List Nat :=
  (List.range 32).map (fun i =>
    (List.range 8).foldl (fun byte_val j =>
      let bit_idx := i * 8 + j
      if bit_idx < state.length then byte_val ||| (state.getD bit_idx 0 <<< (7 - j))
      else byte_val) 0)

/-- Lowercase hexadecimal digit for a value below 16 (as in Python's
`bytes.hex()`). -/
def hexChar (n : Nat) : Char :=
  if n < 10 then Char.ofNat (48 + n) else Char.ofNat (87 + n)

/-- Two lowercase hex digits of one byte. -/
def byteHex (b : Nat) : List Char :=
  [hexChar (b / 16 % 16), hexChar (b % 16)]

/-- Python `bytes.hex()`: lowercase hex rendering of a byte list. -/
def bytesHex (bs : List Nat) : String :=
  String.mk (bs.flatMap byteHex)

/-- The module-level `traffic_adaptive_hash` entry point, over the
UTF-8 bytes of the input text.  `none` models the `ValueError` that
`init_state` can raise. -/
def traffic_adaptive_hash (input_data : List Nat) (traffic_density : ℚ)
    (signal_state : String) (urgency : ℤ) : Option String :=
  match init_state 256 input_data traffic_density with
  | none => none
  | some st0 =>
    let rule := select_traffic_rule traffic_density signal_state
    let radius := adapt_neighborhood signal_state
    let steps := calculate_evolution_steps traffic_density urgency
    let final := Nat.iterate (fun s => evolve 256 s rule radius) steps.toNat st0
    some (bytesHex (get_hash final steps))

/-- The aggregate signal state computed by `intersection_hash` from the
values of its `signal_states` dict (modelled as an association list)
before delegating to `traffic_adaptive_hash`. -/
def overall_state (signal_states : List (String × String)) : String :=
  let values := signal_states.map Prod.snd
  if "RED" ∈ values then "RED"
  else if "YELLOW" ∈ values then "YELLOW"
  else "GREEN"

/-! ## Specification-side definitions
These follow the wording of the spec (§4.2, §4.4, §4.5) rather than the
code, for the refinement claims. -/

/-- Spec §4.5: concatenate window bits into an unsigned integer, most
significant bit first. -/
def windowValueSpec (bits : List Nat) : Nat :=
  bits.foldl (fun acc b => 2 * acc + b) 0

/-- Spec §4.5: the window of `2*radius+1` neighbor bits at offsets
`-radius..+radius` around `i`, indices modulo 256. -/
def windowBitsSpec (state : List Nat) (radius i : Nat) : List Nat :=
  (List.range (2 * radius + 1)).map (fun k => state.getD (neighborIdx 256 i k radius) 0)

/-- Spec §4.5: the new value of cell `i` — an elementary-rule table
lookup (`Nat.testBit`) for radius 1, the XOR-mixed lookup for larger
radii. -/
def newBitSpec (state : List Nat) (rule radius i : Nat) : Nat :=
  let w := windowValueSpec (windowBitsSpec state radius i)
  if radius = 1 then (if Nat.testBit rule w then 1 else 0)
  else (if Nat.testBit (rule ^^^ (w % 256)) (w % 8) then 1 else 0)

/-- Spec §4.2: the seven-branch ordered decision table. -/
def ruleTableSpec (density : ℚ) (signalState : String) : Nat :=
  if signalState = "EMERGENCY" then 184
  else if density < 3 / 10 ∧ signalState = "GREEN" then 30
  else if density < 3 / 10 then 90
  else if 3 / 10 ≤ density ∧ density < 7 / 10 ∧ signalState = "YELLOW" then 110
  else if 3 / 10 ≤ density ∧ density < 7 / 10 then 90
  else if 7 / 10 ≤ density ∧ signalState = "RED" then 110
  else 184

set_option maxRecDepth 8000

/-! ## Auxiliary lemmas -/

theorem length_byteBits (b : Nat) : (byteBits b).length = 8 := by
  simp [byteBits]

theorem length_flatMap_byteBits (l : List Nat) :
    (l.flatMap byteBits).length = 8 * l.length := by
  induction l with
  | nil => rfl
  | cons x xs ih =>
    simp only [List.flatMap_cons, List.length_append, length_byteBits, ih,
      List.length_cons]
    ring

theorem two_mul_or_one (a : Nat) : 2 * a ||| 1 = 2 * a + 1 := by
  apply Nat.eq_of_testBit_eq
  intro i
  cases i with
  | zero => simp [Nat.testBit_or, Nat.testBit_to_div_mod, Nat.mul_add_mod]
  | succ j =>
    rw [Nat.testBit_or, Nat.testBit_succ, Nat.testBit_succ, Nat.testBit_succ]
    have h1 : 2 * a / 2 = a := by omega
    have h2 : (2 * a + 1) / 2 = a := by omega
    have h3 : (1 : Nat) / 2 = 0 := by norm_num
    rw [h1, h2, h3]
    simp [Nat.zero_testBit]

theorem shiftLeft_one_or (a b : Nat) (hb : b ≤ 1) : (a <<< 1) ||| b = 2 * a + b := by
  have h2 : a <<< 1 = 2 * a := by rw [Nat.shiftLeft_eq]; ring
  interval_cases b
  · simp [h2]
  · rw [h2, two_mul_or_one]

theorem foldl_window_eq (l : List Nat) (hl : ∀ b ∈ l, b ≤ 1) (acc : Nat) :
    l.foldl (fun acc bit => (acc <<< 1) ||| bit) acc =
      l.foldl (fun acc b => 2 * acc + b) acc := by
  induction l generalizing acc with
  | nil => rfl
  | cons x xs ih =>
    simp only [List.foldl_cons]
    rw [shiftLeft_one_or acc x (hl x (List.mem_cons_self _ _))]
    exact ih (fun b hb => hl b (List.mem_cons_of_mem _ hb)) _

theorem shiftRight_and_one (x i : Nat) :
    (x >>> i) &&& 1 = if x.testBit i then 1 else 0 := by
  rw [Nat.and_one_is_mod, Nat.shiftRight_eq_div_pow, Nat.testBit_to_div_mod]
  rcases Nat.mod_two_eq_zero_or_one (x / 2 ^ i) with h | h <;> simp [h]

theorem getD_le_one (l : List Nat) (hl : ∀ b ∈ l, b ≤ 1) (i : Nat) :
    l.getD i 0 ≤ 1 := by
  rcases lt_or_le i l.length with h | h
  · rw [List.getD_eq_getElem l 0 h]
    exact hl _ (List.getElem_mem h)
  · rw [List.getD_eq_default l 0 h]
    exact Nat.zero_le 1

theorem evolve_getD (size : Nat) (state : List Nat) (rule radius i : Nat)
    (hi : i < size) :
    (evolve size state rule radius).getD i 0 = cellNext size state rule radius i := by
  unfold evolve
  rw [List.getD_eq_getElem _ 0 (by simpa using hi)]
  simp

theorem length_compress (hs block : List Nat) : (compress hs block).length = 8 := by
  simp [compress]

theorem length_foldl_compress (blocks : List (List Nat)) (acc : List Nat)
    (h : acc.length = 8) : (blocks.foldl compress acc).length = 8 := by
  induction blocks generalizing acc with
  | nil => exact h
  | cons b bs ih => exact ih _ (length_compress _ _)

theorem length_flatMap_wordBytes (l : List Nat) :
    (l.flatMap wordBytes).length = 4 * l.length := by
  induction l with
  | nil => rfl
  | cons x xs ih =>
    simp only [List.flatMap_cons, List.length_append, ih, List.length_cons, wordBytes]
    simp
    ring

theorem length_sha256 (msg : List Nat) : (sha256 msg).length = 32 := by
  unfold sha256
  rw [length_flatMap_wordBytes, length_foldl_compress _ _ (by simp [H0])]

theorem length_flatten_replicate (m : Nat) (l : List Nat) :
    (List.flatten (List.replicate m l)).length = m * l.length := by
  induction m with
  | zero => simp
  | succ n ih =>
    simp only [List.replicate_succ, List.flatten_cons, List.length_append, ih]
    ring

theorem init_state_length (data : List Nat) (density : ℚ) (st : List Nat)
    (h : init_state 256 data density = some st) : st.length = 256 := by
  simp only [init_state] at h
  split_ifs at h with hlt hseed
  · obtain rfl := Option.some.inj h
    have hp : (((sha256 (data ++ [(pyInt (density * 255)).toNat])).flatMap byteBits)).length
        = 256 := by
      rw [length_flatMap_byteBits, length_sha256]
    simp only [List.length_take, List.length_append, length_flatten_replicate, hp]
    omega
  · obtain rfl := Option.some.inj h
    simp only [List.length_take]
    omega

theorem init_state_isSome (data : List Nat) (density : ℚ)
    (h0 : 0 ≤ density) (h1 : density ≤ 1) : (init_state 256 data density).isSome := by
  have hnn : (0 : ℚ) ≤ density * 255 := mul_nonneg h0 (by norm_num)
  have hfl : pyInt (density * 255) = ⌊density * 255⌋ := by
    unfold pyInt; rw [if_pos hnn]
  have hs0 : (0 : ℤ) ≤ pyInt (density * 255) := by
    rw [hfl]; exact Int.le_floor.mpr (by push_cast; exact hnn)
  have hs1 : pyInt (density * 255) < 256 := by
    rw [hfl]; exact Int.floor_lt.mpr (by push_cast; nlinarith)
  simp only [init_state]
  split_ifs with hlt hseed
  · rfl
  · exact absurd ⟨hs0, hs1⟩ hseed
  · rfl

theorem init_state_none (data : List Nat) (density : ℚ)
    (hlen : data.length < 32) (hseed : 255 < pyInt (density * 255)) :
    init_state 256 data density = none := by
  simp only [init_state]
  rw [if_pos (by rw [length_flatMap_byteBits]; omega), if_neg (by omega)]

theorem length_flatMap_byteHex (l : List Nat) :
    (l.flatMap byteHex).length = 2 * l.length := by
  induction l with
  | nil => rfl
  | cons x xs ih =>
    simp only [List.flatMap_cons, List.length_append, ih, List.length_cons, byteHex]
    simp
    ring

theorem length_get_hash (state : List Nat) (steps : ℤ) :
    (get_hash state steps).length = 32 := by
  simp [get_hash]

theorem bytesHex_length (bs : List Nat) : (bytesHex bs).length = 2 * bs.length := by
  show (bs.flatMap byteHex).length = 2 * bs.length
  exact length_flatMap_byteHex bs

theorem hexChar_mem (n : Nat) (h : n < 16) : hexChar n ∈ ("0123456789abcdef".data) := by
  interval_cases n <;> decide

theorem bytesHex_chars (bs : List Nat) (c : Char) (hc : c ∈ (bytesHex bs).data) :
    c ∈ ("0123456789abcdef".data) := by
  have hc2 : c ∈ bs.flatMap byteHex := hc
  rw [List.mem_flatMap] at hc2
  obtain ⟨b, _, hcb⟩ := hc2
  simp only [byteHex, List.mem_cons, List.not_mem_nil, or_false] at hcb
  rcases hcb with rfl | rfl
  · exact hexChar_mem _ (Nat.mod_lt _ (by norm_num))
  · exact hexChar_mem _ (Nat.mod_lt _ (by norm_num))

/-! ## Claim theorems -/

/-- C1: for every 256-bit state, rule in [0,255] and radius >= 1, one
Evolver generation computes each new cell `i` from the window of
`2*radius+1` bits at offsets `-radius..+radius` around `i` (indices
modulo 256), packed MSB-first; for radius 1 the new bit is bit number
(window value) of the 8-bit rule, and for radius > 1 it is bit number
(window value mod 8) of (rule XOR (window value mod 256)). -/
theorem ca_evolve_generation (state : List Nat) (rule radius i : Nat)
    (hlen : state.length = 256) (hbits : ∀ b ∈ state, b ≤ 1)
    (hrule : rule ≤ 255) (hrad : 1 ≤ radius) (hi : i < 256) :
    (evolve 256 state rule radius).getD i 0 = newBitSpec state rule radius i := by
  rw [evolve_getD 256 state rule radius i hi]
  simp only [cellNext, newBitSpec, windowBitsSpec, windowValueSpec]
  have hb : ∀ b ∈ (List.range (2 * radius + 1)).map
      (fun k => state.getD (neighborIdx 256 i k radius) 0), b ≤ 1 := by
    intro b hbm
    simp only [List.mem_map] at hbm
    obtain ⟨k, hk, rfl⟩ := hbm
    exact getD_le_one state hbits _
  rw [foldl_window_eq _ hb 0]
  by_cases h1 : radius = 1
  · rw [if_pos h1, if_pos h1, shiftRight_and_one]
  · rw [if_neg h1, if_neg h1, shiftRight_and_one]

/-- Witness for C1 at the all-zero state, rule 30, radius 1, cell 0. -/
theorem ca_evolve_generation_witness :
    (List.replicate 256 (0 : Nat)).length = 256 ∧ (30 : Nat) ≤ 255 ∧
      (evolve 256 (List.replicate 256 0) 30 1).getD 0 0 =
        newBitSpec (List.replicate 256 0) 30 1 0 :=
  ⟨by simp, by norm_num,
    ca_evolve_generation (List.replicate 256 0) 30 1 0 (by simp)
      (by simp [List.mem_replicate]) (by norm_num) (by norm_num) (by norm_num)⟩

/-- C2: RuleSelector returns a rule from {30, 90, 110, 184} chosen by
the 7-branch first-match decision table of spec section 4.2, including
at the boundary densities 0.3 and 0.7. -/
theorem ca_rule_table_correct (density : ℚ) (signalState : String) :
    select_traffic_rule density signalState = ruleTableSpec density signalState ∧
      select_traffic_rule density signalState ∈ ([30, 90, 110, 184] : List Nat) := by
  constructor
  · simp only [select_traffic_rule, ruleTableSpec]
    split_ifs <;>
      first | rfl | tauto | (exfalso; linarith) | (exfalso; simp_all <;> linarith)
  · simp only [select_traffic_rule]
    split_ifs <;> simp

/-- C3: StepScheduler returns exactly
`min(256, 64 + floor(density*64) + urgency*10)`, and for density in
[0,1] and urgency in [0,10] this value lies in [64, 256], the cap being
applied after the additive computation. -/
theorem ca_steps_formula (density : ℚ) (urgency : ℤ)
    (h0 : 0 ≤ density) (h1 : density ≤ 1) (h2 : 0 ≤ urgency) (h3 : urgency ≤ 10) :
    calculate_evolution_steps density urgency =
        min 256 (64 + ⌊density * 64⌋ + urgency * 10) ∧
      64 ≤ calculate_evolution_steps density urgency ∧
      calculate_evolution_steps density urgency ≤ 256 := by
  have hfl : pyInt (density * 64) = ⌊density * 64⌋ := by
    unfold pyInt; rw [if_pos (mul_nonneg h0 (by norm_num))]
  have hge : (0 : ℤ) ≤ ⌊density * 64⌋ :=
    Int.le_floor.mpr (by push_cast; exact mul_nonneg h0 (by norm_num))
  have hle : ⌊density * 64⌋ ≤ 64 := by
    have h64 : density * 64 ≤ 64 := by nlinarith
    have := Int.floor_le_floor h64
    simpa using this
  simp only [calculate_evolution_steps, hfl]
  refine ⟨min_comm _ _, le_min (by linarith) (by norm_num), min_le_right _ _⟩

/-- Witness for C3 at density 1, urgency 3. -/
theorem ca_steps_formula_witness :
    (0 : ℚ) ≤ 1 ∧ (3 : ℤ) ≤ 10 ∧
      (calculate_evolution_steps 1 3 = min 256 (64 + ⌊(1 : ℚ) * 64⌋ + 3 * 10) ∧
        64 ≤ calculate_evolution_steps 1 3 ∧ calculate_evolution_steps 1 3 ≤ 256) :=
  ⟨by decide, by decide,
    ca_steps_formula 1 3 (by decide) (by decide) (by decide) (by decide)⟩

/-- C4 counterexample: the hash computation DOES signal an error for a
density outside [0,1]: with empty input and density 2 the seeder's
`bytes([int(density*255)])` is out of octet range (`ValueError`,
modelled as `none`), so the claim that no error is ever signaled and
density is treated as clamped is false. -/
theorem ca_no_error_counterexample : traffic_adaptive_hash [] 2 "GREEN" 0 = none := by
  have hv : pyInt ((2 : ℚ) * 255) = 510 := by norm_num [pyInt]
  have h : ¬(0 ≤ pyInt ((2 : ℚ) * 255) ∧ pyInt ((2 : ℚ) * 255) < 256) := by
    rw [hv]; omega
  simp only [traffic_adaptive_hash, init_state, List.flatMap_nil, List.length_nil]
  rw [if_pos (by norm_num), if_neg h]

/-- C4 amended: no clamping happens.  For density in [0,1] the hash
computation never signals an error, whatever the text, signalState or
urgency; an unrecognized signalState falls to the default radius 1 and
the "other states" rule branches; but a density with
`int(density*255) > 255` makes the computation fail whenever the input
is shorter than 32 bytes, and urgency feeds the step formula unclamped. -/
theorem ca_error_policy_amended (data : List Nat) (density : ℚ) (sig : String)
    (urg : ℤ) :
    (0 ≤ density → density ≤ 1 → (traffic_adaptive_hash data density sig urg).isSome) ∧
      (sig ∉ (["GREEN", "YELLOW", "RED", "EMERGENCY"] : List String) →
        adapt_neighborhood sig = 1 ∧
          select_traffic_rule density sig =
            (if density < 3 / 10 then 90 else if density < 7 / 10 then 90 else 184)) ∧
      (data.length < 32 → 255 < pyInt (density * 255) →
        traffic_adaptive_hash data density sig urg = none) := by
  refine ⟨?_, ?_, ?_⟩
  · intro h0 h1
    obtain ⟨st, hst⟩ :=
      Option.isSome_iff_exists.mp (init_state_isSome data density h0 h1)
    simp only [traffic_adaptive_hash, hst]
    rfl
  · intro hsig
    simp only [List.mem_cons, List.not_mem_nil, or_false, not_or] at hsig
    obtain ⟨hG, hY, hR, hE⟩ := hsig
    constructor
    · simp [adapt_neighborhood, hG, hY, hR, hE]
    · simp [select_traffic_rule, hG, hY, hR, hE]
  · intro hlen hseed
    have hnone : init_state 256 data density = none := init_state_none data density hlen hseed
    simp [traffic_adaptive_hash, hnone]

/-- Witness for C4 amended at text "", density 0, signalState "PURPLE",
urgency 0 (no-error and default branches), and density 2 (failure). -/
theorem ca_error_policy_amended_witness :
    (traffic_adaptive_hash [] 0 "PURPLE" 0).isSome ∧
      (adapt_neighborhood "PURPLE" = 1 ∧
        select_traffic_rule 0 "PURPLE" =
          (if (0 : ℚ) < 3 / 10 then 90 else if (0 : ℚ) < 7 / 10 then 90 else 184)) ∧
      traffic_adaptive_hash [] 2 "GREEN" 0 = none :=
  ⟨(ca_error_policy_amended [] 0 "PURPLE" 0).1 (by decide) (by decide),
    (ca_error_policy_amended [] 0 "PURPLE" 0).2.1 (by decide),
    (ca_error_policy_amended [] 2 "GREEN" 0).2.2 (by decide)
      (by norm_num [pyInt])⟩

/-- C5: for every text, density in [0,1], signalState and urgency in
[0,10], the hash succeeds with a string of exactly 64 lowercase
hexadecimal characters (two per byte of the 32-byte digest), and the
seeded state has the full 256 bits. -/
theorem ca_hash_fixed_format (data : List Nat) (density : ℚ) (sig : String)
    (urg : ℤ) (h0 : 0 ≤ density) (h1 : density ≤ 1) (h2 : 0 ≤ urg) (h3 : urg ≤ 10) :
    ∃ st s, init_state 256 data density = some st ∧ st.length = 256 ∧
      traffic_adaptive_hash data density sig urg = some s ∧
      s.length = 64 ∧ ∀ c ∈ s.data, c ∈ ("0123456789abcdef".data) := by
  obtain ⟨st, hst⟩ :=
    Option.isSome_iff_exists.mp (init_state_isSome data density h0 h1)
  refine ⟨st,
    bytesHex (get_hash
      (Nat.iterate
        (fun s => evolve 256 s (select_traffic_rule density sig) (adapt_neighborhood sig))
        (calculate_evolution_steps density urg).toNat st)
      (calculate_evolution_steps density urg)),
    hst, init_state_length _ _ _ hst, ?_, ?_, ?_⟩
  · simp only [traffic_adaptive_hash, hst]
  · rw [bytesHex_length, length_get_hash]
  · intro c hc
    exact bytesHex_chars _ c hc

/-- Witness for C5 at the empty text with density 0 (the seeder edge
case of spec section 8). -/
theorem ca_hash_fixed_format_witness :
    (0 : ℚ) ≤ 0 ∧ (0 : ℚ) ≤ 1 ∧
      ∃ st s, init_state 256 [] 0 = some st ∧ st.length = 256 ∧
        traffic_adaptive_hash [] 0 "GREEN" 0 = some s ∧
        s.length = 64 ∧ ∀ c ∈ s.data, c ∈ ("0123456789abcdef".data) :=
  ⟨by decide, by decide,
    ca_hash_fixed_format [] 0 "GREEN" 0 (by decide) (by decide) (by decide) (by decide)⟩

/-- C6: the Evolver's neighborhood lookup accesses only in-range
positions of the 256-cell state and agrees with the naive
`(i + offset) mod 256` reference, with offset `k - radius` for
`k = 0..2*radius`. -/
theorem ca_ring_neighborhood (i radius k : Nat) (hi : i < 256)
    (hrad : radius ∈ ([1, 2, 3, 5] : List Nat)) (hk : k ≤ 2 * radius) :
    neighborIdx 256 i k radius < 256 ∧
      (neighborIdx 256 i k radius : ℤ) =
        ((i : ℤ) + ((k : ℤ) - (radius : ℤ))) % 256 := by
  unfold neighborIdx
  constructor <;> omega

/-- Witness for C6: at cell 0 the offset -1 wraps to index 255. -/
theorem ca_ring_neighborhood_witness :
    neighborIdx 256 0 0 1 = 255 ∧ neighborIdx 256 0 0 1 < 256 :=
  ⟨by decide, (ca_ring_neighborhood 0 1 0 (by decide) (by decide) (by decide)).1⟩

/-- C7: the BitVector invariant — the seeded state has length 256,
every Evolver generation has length 256, and each cell of a generation
is a function `cellNext` of the untouched prior generation only, the
new list replacing the old wholesale. -/
theorem ca_state_invariant (data : List Nat) (density : ℚ) (st : List Nat)
    (rule radius : Nat) :
    (init_state 256 data density = some st → st.length = 256) ∧
      (evolve 256 st rule radius).length = 256 ∧
      ∀ i, i < 256 → (evolve 256 st rule radius).getD i 0 =
        cellNext 256 st rule radius i :=
  ⟨init_state_length data density st, by simp [evolve],
    fun i hi => evolve_getD 256 st rule radius i hi⟩

/-- Witness for C7 at a 32-byte all-zero input and the all-zero state. -/
theorem ca_state_invariant_witness :
    (List.replicate 256 (0 : Nat)).length = 256 ∧
      (evolve 256 (List.replicate 256 0) 30 1).length = 256 ∧
      (evolve 256 (List.replicate 256 0) 30 1).getD 0 0 =
        cellNext 256 (List.replicate 256 0) 30 1 0 :=
  ⟨(ca_state_invariant (List.replicate 32 0) 0 (List.replicate 256 0) 30 1).1 (by decide),
    (ca_state_invariant (List.replicate 32 0) 0 (List.replicate 256 0) 30 1).2.1,
    (ca_state_invariant (List.replicate 32 0) 0 (List.replicate 256 0) 30 1).2.2 0
      (by decide)⟩

/-- C8: traffic_adaptive_hash is deterministic.  The embedding is a
pure function of (text bytes, density, signalState, urgency) — the
Python code builds a fresh `TrafficAdaptiveCA` per call and touches no
global state — so two calls with the same arguments are the same value. -/
theorem ca_hash_deterministic (data : List Nat) (density : ℚ) (sig : String)
    (urg : ℤ) :
    traffic_adaptive_hash data density sig urg =
      traffic_adaptive_hash data density sig urg := rfl

/-- C9: the aggregate signal state of intersection_hash is "GREEN"
whenever no direction reports "RED" or "YELLOW" (e.g. all
"EMERGENCY"), and is always one of "RED"/"YELLOW"/"GREEN", never
"EMERGENCY". -/
theorem ca_overall_state_aggregate (signal_states : List (String × String)) :
    ("RED" ∉ signal_states.map Prod.snd → "YELLOW" ∉ signal_states.map Prod.snd →
        overall_state signal_states = "GREEN") ∧
      overall_state signal_states ≠ "EMERGENCY" ∧
      overall_state signal_states ∈ (["RED", "YELLOW", "GREEN"] : List String) := by
  simp only [overall_state]
  split_ifs with h1 h2
  · exact ⟨fun hn _ => absurd h1 hn, by decide, by decide⟩
  · exact ⟨fun _ hy => absurd h2 hy, by decide, by decide⟩
  · exact ⟨fun _ _ => rfl, by decide, by decide⟩

/-- Witness for C9: an all-EMERGENCY intersection aggregates to GREEN. -/
theorem ca_overall_state_aggregate_witness :
    overall_state [("north", "EMERGENCY"), ("south", "EMERGENCY")] = "GREEN" :=
  (ca_overall_state_aggregate _).1 (by decide) (by decide)

/-- C10: for inputs of at least 32 bytes (at least 256 bits) the seeded
state does not depend on the density: the density-keyed padding stream
is only computed when the expanded input is shorter than 256 bits. -/
theorem ca_seeder_density_independent (data : List Nat) (d1 d2 : ℚ)
    (h : 32 ≤ data.length) :
    init_state 256 data d1 = init_state 256 data d2 := by
  have hlen := length_flatMap_byteBits data
  simp only [init_state]
  rw [if_neg (by omega), if_neg (by omega)]

/-- Witness for C10 at a 32-byte input with densities 0 and 1. -/
theorem ca_seeder_density_independent_witness :
    32 ≤ (List.replicate 32 (0 : Nat)).length ∧
      init_state 256 (List.replicate 32 0) 0 = init_state 256 (List.replicate 32 0) 1 :=
  ⟨by decide, ca_seeder_density_independent _ 0 1 (by decide)⟩

end TrafficCA
